import Mathlib

/-!
Verification development for the not-another-list-app frontend: a shallow
embedding of its Redux state-management layer (action constants, action
creators, the three slice reducers, store composition) and of the
request/response orchestration methods of the Lists and Tasks components,
together with theorems settling the specification's testable properties.

JavaScript values flowing through the store (payloads, state fields) are
modelled by the inductive type JSValue; machine-level concerns (prototype
chains, reference identity) are out of scope, and object/array equality is
structural, matching the deep equality the repository's jest tests use.
-/

/-- Model of the JavaScript values the state layer manipulates: undefined,
null, booleans, numbers, strings, arrays and plain objects (ordered field
lists, as produced by object literals in the source). -/
inductive JSValue where
  | undef
  | null
  | bool (b : Bool)
  | num (n : Int)
  | str (s : String)
  | arr (xs : List JSValue)
  | obj (fields : List (String × JSValue))
  deriving Repr

mutual

/-- Structural boolean equality on JSValue (deep equality). -/
def JSValue.beq : JSValue → JSValue → Bool
  | .undef, .undef => true
  | .null, .null => true
  | .bool a, .bool b => a == b
  | .num a, .num b => a == b
  | .str a, .str b => a == b
  | .arr a, .arr b => beqArr a b
  | .obj a, .obj b => beqObj a b
  | _, _ => false

/-- Elementwise structural equality on arrays of JSValue. -/
def beqArr : List JSValue → List JSValue → Bool
  | [], [] => true
  | x :: xs, y :: ys => JSValue.beq x y && beqArr xs ys
  | _, _ => false

/-- Fieldwise structural equality on object field lists. -/
def beqObj : List (String × JSValue) → List (String × JSValue) → Bool
  | [], [] => true
  | (k, v) :: xs, (l, w) :: ys => k == l && JSValue.beq v w && beqObj xs ys
  | _, _ => false

end

mutual

theorem JSValue.eq_of_beq : ∀ a b : JSValue, JSValue.beq a b = true → a = b
  | .undef, .undef, _ => rfl
  | .null, .null, _ => rfl
  | .bool _, .bool _, h => by simpa [JSValue.beq] using h
  | .num _, .num _, h => by simp [JSValue.beq] at h; simp [h]
  | .str _, .str _, h => by simp [JSValue.beq] at h; simp [h]
  | .arr a, .arr b, h => by
      rw [eqArr_of_beqArr a b (by simpa [JSValue.beq] using h)]
  | .obj a, .obj b, h => by
      rw [eqObj_of_beqObj a b (by simpa [JSValue.beq] using h)]

theorem eqArr_of_beqArr : ∀ a b : List JSValue, beqArr a b = true → a = b
  | [], [], _ => rfl
  | x :: xs, y :: ys, h => by
      simp only [beqArr, Bool.and_eq_true] at h
      rw [JSValue.eq_of_beq x y h.1, eqArr_of_beqArr xs ys h.2]

theorem eqObj_of_beqObj : ∀ a b : List (String × JSValue), beqObj a b = true → a = b
  | [], [], _ => rfl
  | (k, v) :: xs, (l, w) :: ys, h => by
      simp only [beqObj, Bool.and_eq_true] at h
      obtain ⟨⟨h1, h2⟩, h3⟩ := h
      rw [eqObj_of_beqObj xs ys h3, JSValue.eq_of_beq v w h2]
      simp only [beq_iff_eq] at h1
      rw [h1]

end

mutual

theorem JSValue.beq_refl : ∀ a : JSValue, JSValue.beq a a = true
  | .undef => rfl
  | .null => rfl
  | .bool _ => by simp [JSValue.beq]
  | .num _ => by simp [JSValue.beq]
  | .str _ => by simp [JSValue.beq]
  | .arr a => beqArr_refl a
  | .obj a => beqObj_refl a

theorem beqArr_refl : ∀ a : List JSValue, beqArr a a = true
  | [] => rfl
  | x :: xs => by simp [beqArr, JSValue.beq_refl x, beqArr_refl xs]

theorem beqObj_refl : ∀ a : List (String × JSValue), beqObj a a = true
  | [] => rfl
  | (k, v) :: xs => by simp [beqObj, JSValue.beq_refl v, beqObj_refl xs]

end

instance : DecidableEq JSValue := fun a b =>
  if h : JSValue.beq a b = true then .isTrue (JSValue.eq_of_beq a b h)
  else .isFalse (fun he => h (he ▸ JSValue.beq_refl a))

/-- Property access v.f on a JSValue: looks the field up in an object
(first occurrence, as in JS object literals where later keys overwrite we
never need duplicates) and yields undefined for a missing field or a
non-object receiver where the source tolerates it. -/
def getField : JSValue → String → JSValue
  | .obj fields, k =>
      match fields.find? (fun p => p.1 == k) with
      | some p => p.2
      | none => JSValue.undef
  | _, _ => JSValue.undef

/-- Whether an object value has the given own field (used to compare state
tree shapes, as the store tests do with toBeDefined). -/
def hasField : JSValue → String → Bool
  | .obj fields, k => fields.any (fun p => p.1 == k)
  | _, _ => false

/-- Array.isArray from the reducers' defensive coercion. -/
def isArray : JSValue → Bool
  | .arr _ => true
  | _ => false

/-- JavaScript truthiness, as tested by the if (!x) guards in the
components: undefined, null, false, 0 and the empty string are falsy. -/
def truthy : JSValue → Bool
  | .undef => false
  | .null => false
  | .bool b => b
  | .num n => n != 0
  | .str s => s ≠ ""
  | .arr _ => true
  | .obj _ => true

/-!
Action identifiers. The constants module src/constants/index.js is not
present under src/; its exact exported values are pinned one by one by the
in-repo test src/natl-frontend/src/constants/index.test.js (15 constants,
pairwise distinct, each equal to its own name except LOGIN_SUCCESS whose
value is the string LOGIN). The definitions below transcribe those pinned
values.
-/

def SET_ACCESS_ID : String := "SET_ACCESS_ID"

def SET_USERNAME : String := "SET_USERNAME"

def SET_PASSWORD : String := "SET_PASSWORD"

def LOGIN_SUCCESS : String := "LOGIN"

def SET_LISTS : String := "SET_LISTS"

def SWITCH_SHOW_ADD_LIST_FORM : String := "SWITCH_SHOW_ADD_LIST_FORM"

def SET_CREATE_LIST_NAME : String := "SET_CREATE_LIST_NAME"

def SET_CREATE_LIST_DESCRIPTION : String := "SET_CREATE_LIST_DESCRIPTION"

def SET_TASKS : String := "SET_TASKS"

def SET_TASKS_LIST_NAME : String := "SET_TASKS_LIST_NAME"

def SET_TASKS_LIST_ID : String := "SET_TASKS_LIST_ID"

def SWITCH_SHOW_ADD_TASK_FORM : String := "SWITCH_SHOW_ADD_TASK_FORM"

def SET_CREATE_TASK_NAME : String := "SET_CREATE_TASK_NAME"

def SET_CREATE_TASK_DESCRIPTION : String := "SET_CREATE_TASK_DESCRIPTION"

def SWITCH_SET_TASK_IS_DONE : String := "SWITCH_SET_TASK_IS_DONE"

/-- A dispatched action record. The type field is a JSValue rather than a
String so that actions without a type, as in the tests' reducer(undefined,
empty object), are representable: there the switch scrutinee is undefined. -/
structure JSAction where
  type : JSValue
  payload : JSValue
  deriving Repr, DecidableEq

/-!
Login slice, from src/unnamed/part_005 (reducers/loginReducer.js). The JS
initial state object carries only the accessId key; the username and
password keys are absent until first written, which reads back as
undefined, so they are modelled as fields initialized to undef.
-/

structure LoginState where
  accessId : JSValue
  username : JSValue
  password : JSValue
  deriving Repr, DecidableEq

def loginInitialState : LoginState :=
  { accessId := .undef, username := .undef, password := .undef }

/-- Slice reducer for the login slice; an absent first argument models the
JS default parameter state = initialState. -/
def loginReducer (state : Option LoginState) (action : JSAction) : LoginState :=
  let s := state.getD loginInitialState
  if action.type = .str SET_ACCESS_ID then
    { s with accessId := action.payload }
  else if action.type = .str SET_USERNAME then
    { s with username := action.payload }
  else if action.type = .str SET_PASSWORD then
    { s with password := action.payload }
  else if action.type = .str LOGIN_SUCCESS then
    { s with accessId := getField action.payload "accessId",
             username := getField action.payload "username" }
  else s

/-- The action types the login reducer's switch handles. -/
def loginRecognizes (t : JSValue) : Bool :=
  decide (t = .str SET_ACCESS_ID) || decide (t = .str SET_USERNAME) ||
  decide (t = .str SET_PASSWORD) || decide (t = .str LOGIN_SUCCESS)

/-!
List slice, from src/unnamed/part_004 (reducers/listReducer.js).
-/

structure ListState where
  list : JSValue
  showAddList : JSValue
  name : JSValue
  description : JSValue
  deriving Repr, DecidableEq

def listInitialState : ListState :=
  { list := .arr [], showAddList := .bool false, name := .str "", description := .str "" }

/-- Slice reducer for the list slice, with the defensive Array.isArray
coercion on SET_LISTS. -/
def listReducer (state : Option ListState) (action : JSAction) : ListState :=
  let s := state.getD listInitialState
  if action.type = .str SET_LISTS then
    { s with list := if isArray action.payload then action.payload else .arr [] }
  else if action.type = .str SWITCH_SHOW_ADD_LIST_FORM then
    { s with showAddList := action.payload }
  else if action.type = .str SET_CREATE_LIST_NAME then
    { s with name := action.payload }
  else if action.type = .str SET_CREATE_LIST_DESCRIPTION then
    { s with description := action.payload }
  else s

/-- The action types the list reducer's switch handles. -/
def listRecognizes (t : JSValue) : Bool :=
  decide (t = .str SET_LISTS) || decide (t = .str SWITCH_SHOW_ADD_LIST_FORM) ||
  decide (t = .str SET_CREATE_LIST_NAME) || decide (t = .str SET_CREATE_LIST_DESCRIPTION)

/-!
Task slice, from src/unnamed/part_006 (reducers/taskReducer.js). The
initial JS state object has no isDone key; SWITCH_SET_TASK_IS_DONE adds
one. The absent key is modelled as a field initialized to undef.
-/

structure TaskState where
  tasks : JSValue
  showAddTaskForm : JSValue
  name : JSValue
  description : JSValue
  taskListName : JSValue
  taskListId : JSValue
  isDone : JSValue
  deriving Repr, DecidableEq

def taskInitialState : TaskState :=
  { tasks := .arr [], showAddTaskForm := .bool false, name := .str "",
    description := .str "", taskListName := .str "", taskListId := .str "",
    isDone := .undef }

/-- Slice reducer for the task slice, with the defensive Array.isArray
coercion on SET_TASKS. -/
def taskReducer (state : Option TaskState) (action : JSAction) : TaskState :=
  let s := state.getD taskInitialState
  if action.type = .str SET_TASKS then
    { s with tasks := if isArray action.payload then action.payload else .arr [] }
  else if action.type = .str SET_TASKS_LIST_NAME then
    { s with taskListName := action.payload }
  else if action.type = .str SET_TASKS_LIST_ID then
    { s with taskListId := action.payload }
  else if action.type = .str SWITCH_SHOW_ADD_TASK_FORM then
    { s with showAddTaskForm := action.payload }
  else if action.type = .str SWITCH_SET_TASK_IS_DONE then
    { s with isDone := action.payload }
  else if action.type = .str SET_CREATE_TASK_NAME then
    { s with name := action.payload }
  else if action.type = .str SET_CREATE_TASK_DESCRIPTION then
    { s with description := action.payload }
  else s

/-- The action types the task reducer's switch handles. -/
def taskRecognizes (t : JSValue) : Bool :=
  decide (t = .str SET_TASKS) || decide (t = .str SET_TASKS_LIST_NAME) ||
  decide (t = .str SET_TASKS_LIST_ID) || decide (t = .str SWITCH_SHOW_ADD_TASK_FORM) ||
  decide (t = .str SWITCH_SET_TASK_IS_DONE) || decide (t = .str SET_CREATE_TASK_NAME) ||
  decide (t = .str SET_CREATE_TASK_DESCRIPTION)

/-!
Store composition, from src/unnamed/part_008 (store/configureStore.js).
The source builds rootReducer with combineReducers over an object whose
single key is login mapping to loginReducer; the list and task reducers
are never imported or combined there (the comment sections for page and
component reducers are empty). configureStore wraps it in createStore.
-/

structure RootState where
  login : LoginState
  deriving Repr, DecidableEq

/-- Root reducer as combineReducers produces it from the source argument
object: each key's sub-reducer receives its own sub-state (undefined on the
first dispatch) and every action. -/
def rootReducer (state : Option RootState) (action : JSAction) : RootState :=
  { login := loginReducer (state.map (fun s => s.login)) action }

/-- The state createStore holds after the initializing dispatch, i.e. what
configureStore().getState() returns. -/
def storeInitialState : RootState :=
  rootReducer none { type := .str "@@redux/INIT", payload := .undef }

/-- View of the composed state tree as a JS object, to talk about which
top-level slice keys exist, as configureStore.test.js does. -/
def rootStateToJS (s : RootState) : JSValue :=
  .obj [("login", .obj [("accessId", s.login.accessId),
                        ("username", s.login.username),
                        ("password", s.login.password)])]

/-!
Action creators from src/natl-frontend/src/actions/loginAction.js. They
return plain JS values: the first four build a record with a type key and
a payload key; loginFailed has an empty body, so calling it yields
undefined.
-/

def setAccessId (accessId : JSValue) : JSValue :=
  .obj [("type", .str SET_ACCESS_ID), ("payload", accessId)]

def setUsername (username : JSValue) : JSValue :=
  .obj [("type", .str SET_USERNAME), ("payload", username)]

def setPassword (password : JSValue) : JSValue :=
  .obj [("type", .str SET_PASSWORD), ("payload", password)]

def loginSuccess (username accessId : JSValue) : JSValue :=
  .obj [("type", .str LOGIN_SUCCESS),
        ("payload", .obj [("username", username), ("accessId", accessId)])]

def loginFailed : JSValue :=
  JSValue.undef

/-- Whether a value is an action record carrying both a type key and a
payload key. -/
def isActionRecord (v : JSValue) : Bool :=
  hasField v "type" && hasField v "payload"

/-!
Action creators dispatched by the Lists and Tasks components. Their
modules (actions/listAction.js, actions/taskAction.js) are not under src/;
only their call sites in the components are.
-/

/-- Modelled from the spec: the list action creator setLists, absent from
src/ (actions/listAction.js); per spec 4.1 a constructor packages the
operation identifier and the payload into an action record. -/
def setListsAction (lists : JSValue) : JSAction :=
  { type := .str SET_LISTS, payload := lists }

/-- Modelled from the spec: the list action creator switchShowAddListForm,
absent from src/ (actions/listAction.js). -/
def switchShowAddListFormAction (currentVal : JSValue) : JSAction :=
  { type := .str SWITCH_SHOW_ADD_LIST_FORM, payload := currentVal }

/-- Modelled from the spec: the list action creator setCreateListName,
absent from src/ (actions/listAction.js). -/
def setCreateListNameAction (name : JSValue) : JSAction :=
  { type := .str SET_CREATE_LIST_NAME, payload := name }

/-- Modelled from the spec: the list action creator
setCreateListDescription, absent from src/ (actions/listAction.js). -/
def setCreateListDescriptionAction (description : JSValue) : JSAction :=
  { type := .str SET_CREATE_LIST_DESCRIPTION, payload := description }

/-- Modelled from the spec: the task action creator setTasks, absent from
src/ (actions/taskAction.js). -/
def setTasksAction (tasks : JSValue) : JSAction :=
  { type := .str SET_TASKS, payload := tasks }

/-- Modelled from the spec: the task action creator setTaskListName,
absent from src/ (actions/taskAction.js). -/
def setTaskListNameAction (listName : JSValue) : JSAction :=
  { type := .str SET_TASKS_LIST_NAME, payload := listName }

/-- Modelled from the spec: the task action creator setTaskListId, absent
from src/ (actions/taskAction.js). -/
def setTaskListIdAction (listId : JSValue) : JSAction :=
  { type := .str SET_TASKS_LIST_ID, payload := listId }

/-- Modelled from the spec: the task action creator switchShowAddTaskForm,
absent from src/ (actions/taskAction.js). -/
def switchShowAddTaskFormAction (currentVal : JSValue) : JSAction :=
  { type := .str SWITCH_SHOW_ADD_TASK_FORM, payload := currentVal }

/-- Modelled from the spec: the task action creator setCreateTaskName,
absent from src/ (actions/taskAction.js). -/
def setCreateTaskNameAction (name : JSValue) : JSAction :=
  { type := .str SET_CREATE_TASK_NAME, payload := name }

/-- Modelled from the spec: the task action creator
setCreateTaskDescription, absent from src/ (actions/taskAction.js). -/
def setCreateTaskDescriptionAction (description : JSValue) : JSAction :=
  { type := .str SET_CREATE_TASK_DESCRIPTION, payload := description }

/-!
Routing gate, from src/unnamed/part_002 (components/App/App.js): render
returns the Login component when this.props.login.accessId === undefined
and otherwise the routed dashboard/preferences views.
-/

/-- What App.render produces, abstracted to the branch taken. -/
inductive Rendered where
  | loginView
  | routedViews
  deriving Repr, DecidableEq

/-- The authentication gate of App.render. -/
def appRender (login : LoginState) : Rendered :=
  if login.accessId = .undef then .loginView else .routedViews

/-!
Request/response orchestration, from the Lists component
(src/unnamed/part_000) and the Tasks component
(src/natl-frontend/src/components/Tasks/Tasks.js). Each async method is
embedded as a function from its inputs, plus the responses the backend
returns to the requests it issues in order, to the chronological list of
its observable effects: requests issued, actions dispatched, writes to the
lastError banner state, and toasts shown. The required name inputs are
modelled as strings: they come from the slice fields initialized to the
empty string and written only by text inputs, and the source calls
String.prototype.trim on them. The configured base URL prefix of each
request is elided; paths identify the endpoints.
-/

/-- Model of String.prototype.trim as called on the required name fields:
drops leading and trailing whitespace. Defined by structural list
operations so that concrete instances evaluate inside the kernel. -/
def jsTrim (s : String) : String :=
  ⟨((s.data.dropWhile Char.isWhitespace).reverse.dropWhile Char.isWhitespace).reverse⟩

/-- Outcome of one fetch call: a 2xx response with a JSON body, a non-2xx
response with a status and body text, or a thrown transport error. -/
inductive HttpResponse where
  | ok (body : JSValue)
  | err (status : Nat) (text : String)
  | exn (message : String)
  deriving Repr, DecidableEq

/-- One observable effect of an orchestration method, in program order. -/
inductive Effect where
  | request (path : String) (body : List (String × JSValue))
  | dispatch (action : JSAction)
  | setLastError (err : Option String)
  | toast (message : String) (kind : String)
  deriving Repr, DecidableEq

/-- The template-string fallback text or status from the error branches. -/
def textOr (text : String) (status : Nat) : String :=
  if text = "" then toString status else text

/-- Effects of ListsComponent.loadLists given the response to its single
request. -/
def loadLists (accessId : JSValue) (resp : HttpResponse) : List Effect :=
  Effect.request "/list/list" [("access_id", accessId)] ::
  match resp with
  | .err status text =>
      [.setLastError (some ("Load lists failed: " ++ textOr text status)),
       .dispatch (setListsAction (.arr []))]
  | .ok body =>
      [.dispatch (setListsAction (if isArray body then body else .arr []))]
  | .exn message =>
      [.setLastError (some ("Load lists exception: " ++ message)),
       .dispatch (setListsAction (.arr []))]

/-- The three dispatches ending ListsComponent.createList: both input
fields are cleared and the show-form flag is dispatched with its current
value. -/
def resetListForm (showAddList : JSValue) : List Effect :=
  [.dispatch (setCreateListNameAction (.str "")),
   .dispatch (setCreateListDescriptionAction (.str "")),
   .dispatch (switchShowAddListFormAction showAddList)]

/-- Effects of ListsComponent.createList. Inputs: the login slice's
accessId, the list slice's name, description and showAddList, the response
to the create request, and the response to the reload request loadLists
then issues. -/
def createList (accessId : JSValue) (name description : String)
    (showAddList : JSValue) (createResp loadResp : HttpResponse) : List Effect :=
  Effect.setLastError none ::
  if truthy accessId = false then
    [.setLastError (some "You must be logged in to create a list.")]
  else if jsTrim name = "" then
    [.setLastError (some "List name is required.")]
  else
    Effect.request "/list/create"
      [("access_id", accessId), ("name", .str name),
       ("description", .str description), ("is_done", .bool false)] ::
    match createResp with
    | .err status text =>
        [.toast ("Create failed: " ++ textOr text status) "error",
         .setLastError (some ("Create failed: " ++ textOr text status))] ++
        loadLists accessId loadResp ++ resetListForm showAddList
    | .ok _ =>
        [.toast "List created" "success", .setLastError none] ++
        loadLists accessId loadResp ++ resetListForm showAddList
    | .exn message =>
        [.setLastError (some ("Create exception: " ++ message))]

/-- Effects of ListsComponent.deleteList: the delete request, its
classification, then the awaited reload via loadLists. -/
def deleteList (accessId id : JSValue) (deleteResp loadResp : HttpResponse) : List Effect :=
  Effect.request "/list/delete" [("access_id", accessId), ("id", id)] ::
  match deleteResp with
  | .err status text =>
      [.toast ("Delete failed: " ++ textOr text status) "error",
       .setLastError (some ("Delete failed: " ++ textOr text status))] ++
      loadLists accessId loadResp
  | .ok _ =>
      [.toast "List deleted" "success", .setLastError none] ++
      loadLists accessId loadResp
  | .exn message =>
      [.setLastError (some ("Delete exception: " ++ message))]

/-- Effects of TasksComponent.loadTasks given the response to its single
request. -/
def tasksLoadTasks (accessId listId : JSValue) (resp : HttpResponse) : List Effect :=
  Effect.request "/task/list" [("access_id", accessId), ("list_id", listId)] ::
  match resp with
  | .err status text =>
      [.setLastError (some ("Load tasks failed: " ++ textOr text status)),
       .dispatch (setTasksAction (.arr []))]
  | .ok body =>
      [.dispatch (setTasksAction (if isArray body then body else .arr []))]
  | .exn message =>
      [.setLastError (some ("Load tasks exception: " ++ message)),
       .dispatch (setTasksAction (.arr []))]

/-- The three dispatches ending TasksComponent.createTask. -/
def resetTaskForm (showAddTaskForm : JSValue) : List Effect :=
  [.dispatch (setCreateTaskNameAction (.str "")),
   .dispatch (setCreateTaskDescriptionAction (.str "")),
   .dispatch (switchShowAddTaskFormAction showAddTaskForm)]

/-- Effects of TasksComponent.createTask. Inputs: the login slice's
accessId, the task slice's taskListId, name, description and
showAddTaskForm, the response to the create request, and the response to
the reload request loadTasks then issues. -/
def createTask (accessId taskListId : JSValue) (name description : String)
    (showAddTaskForm : JSValue) (createResp loadResp : HttpResponse) : List Effect :=
  Effect.setLastError none ::
  if truthy accessId = false then
    [.setLastError (some "You must be logged in to create a task.")]
  else if truthy taskListId = false then
    [.setLastError (some "Please select a list before adding a task.")]
  else if jsTrim name = "" then
    [.setLastError (some "Task name is required.")]
  else
    Effect.request "/task/create"
      [("access_id", accessId), ("name", .str name),
       ("description", .str description), ("list_id", taskListId),
       ("is_done", .bool false)] ::
    match createResp with
    | .err status text =>
        [.toast ("Create failed: " ++ textOr text status) "error",
         .setLastError (some ("Create failed: " ++ textOr text status))] ++
        tasksLoadTasks accessId taskListId loadResp ++ resetTaskForm showAddTaskForm
    | .ok _ =>
        [.toast "Task created" "success", .setLastError none] ++
        tasksLoadTasks accessId taskListId loadResp ++ resetTaskForm showAddTaskForm
    | .exn message =>
        [.setLastError (some ("Create exception: " ++ message))]

/-- The endpoint paths of the requests a trace issues, in order. -/
def requestPaths (tr : List Effect) : List String :=
  tr.filterMap (fun e => match e with | .request path _ => some path | _ => none)

/-- The actions a trace dispatches, in order. -/
def dispatchedActions (tr : List Effect) : List JSAction :=
  tr.filterMap (fun e => match e with | .dispatch a => some a | _ => none)

/-- The writes a trace makes to the error banner state, in order. -/
def errorWrites (tr : List Effect) : List (Option String) :=
  tr.filterMap (fun e => match e with | .setLastError v => some v | _ => none)

/-- The toast messages a trace shows, in order. -/
def toastMessages (tr : List Effect) : List String :=
  tr.filterMap (fun e => match e with | .toast m _ => some m | _ => none)

/-- The list slice after the store processes a trace's dispatches in
order. -/
def applyListEffects (s : ListState) (tr : List Effect) : ListState :=
  tr.foldl (fun st e => match e with | .dispatch a => listReducer (some st) a | _ => st) s

/-- The task slice after the store processes a trace's dispatches in
order. -/
def applyTaskEffects (s : TaskState) (tr : List Effect) : TaskState :=
  tr.foldl (fun st e => match e with | .dispatch a => taskReducer (some st) a | _ => st) s

/-!
Theorems settling the specification's claims.
-/

/-- C1: the claim says configureStore composes all three slice reducers,
so that getState() is the deep merge of the three slice defaults. In the
source, rootReducer combines only the login reducer: the composed initial
state carries the login slice with its default but has no list or task
key, contradicting the store's own test file, which expects state.list
and state.task to be defined with their defaults. -/
theorem configureStore_omits_list_and_task_slices :
    storeInitialState.login = loginInitialState ∧
    hasField (rootStateToJS storeInitialState) "login" = true ∧
    hasField (rootStateToJS storeInitialState) "list" = false ∧
    hasField (rootStateToJS storeInitialState) "task" = false := by decide

/-- C2 counterexample: LOGIN_SUCCESS is a recognized action type of the
login reducer, yet dispatching it to the default login state changes two
fields, accessId and username, refuting that exactly one field of the
resulting state differs from the input for every recognized action. -/
theorem loginSuccess_changes_two_fields :
    loginRecognizes (JSValue.str LOGIN_SUCCESS) = true ∧
    (loginReducer (some loginInitialState)
        { type := .str LOGIN_SUCCESS,
          payload := .obj [("username", .str "alice"), ("accessId", .str "tok-1")] }).accessId
      ≠ loginInitialState.accessId ∧
    (loginReducer (some loginInitialState)
        { type := .str LOGIN_SUCCESS,
          payload := .obj [("username", .str "alice"), ("accessId", .str "tok-1")] }).username
      ≠ loginInitialState.username := by decide

/-- C2 amended: for every slice reducer, input state and recognized action
type, the resulting state is the input with only the targeted field or
fields replaced and all other fields carried over unchanged; every
recognized action targets one field except LOGIN_SUCCESS, which targets
two (accessId and username), and a targeted field keeps its old value when
the payload equals it. -/
theorem recognized_actions_replace_only_targeted_fields :
    (∀ (s : LoginState) (p : JSValue),
       loginReducer (some s) { type := .str SET_ACCESS_ID, payload := p } =
         { s with accessId := p }) ∧
    (∀ (s : LoginState) (p : JSValue),
       loginReducer (some s) { type := .str SET_USERNAME, payload := p } =
         { s with username := p }) ∧
    (∀ (s : LoginState) (p : JSValue),
       loginReducer (some s) { type := .str SET_PASSWORD, payload := p } =
         { s with password := p }) ∧
    (∀ (s : LoginState) (p : JSValue),
       loginReducer (some s) { type := .str LOGIN_SUCCESS, payload := p } =
         { s with accessId := getField p "accessId",
                  username := getField p "username" }) ∧
    (∀ (s : ListState) (p : JSValue),
       listReducer (some s) { type := .str SET_LISTS, payload := p } =
         { s with list := if isArray p then p else .arr [] }) ∧
    (∀ (s : ListState) (p : JSValue),
       listReducer (some s) { type := .str SWITCH_SHOW_ADD_LIST_FORM, payload := p } =
         { s with showAddList := p }) ∧
    (∀ (s : ListState) (p : JSValue),
       listReducer (some s) { type := .str SET_CREATE_LIST_NAME, payload := p } =
         { s with name := p }) ∧
    (∀ (s : ListState) (p : JSValue),
       listReducer (some s) { type := .str SET_CREATE_LIST_DESCRIPTION, payload := p } =
         { s with description := p }) ∧
    (∀ (s : TaskState) (p : JSValue),
       taskReducer (some s) { type := .str SET_TASKS, payload := p } =
         { s with tasks := if isArray p then p else .arr [] }) ∧
    (∀ (s : TaskState) (p : JSValue),
       taskReducer (some s) { type := .str SET_TASKS_LIST_NAME, payload := p } =
         { s with taskListName := p }) ∧
    (∀ (s : TaskState) (p : JSValue),
       taskReducer (some s) { type := .str SET_TASKS_LIST_ID, payload := p } =
         { s with taskListId := p }) ∧
    (∀ (s : TaskState) (p : JSValue),
       taskReducer (some s) { type := .str SWITCH_SHOW_ADD_TASK_FORM, payload := p } =
         { s with showAddTaskForm := p }) ∧
    (∀ (s : TaskState) (p : JSValue),
       taskReducer (some s) { type := .str SWITCH_SET_TASK_IS_DONE, payload := p } =
         { s with isDone := p }) ∧
    (∀ (s : TaskState) (p : JSValue),
       taskReducer (some s) { type := .str SET_CREATE_TASK_NAME, payload := p } =
         { s with name := p }) ∧
    (∀ (s : TaskState) (p : JSValue),
       taskReducer (some s) { type := .str SET_CREATE_TASK_DESCRIPTION, payload := p } =
         { s with description := p }) :=
  ⟨fun _ _ => rfl, fun _ _ => rfl, fun _ _ => rfl, fun _ _ => rfl,
   fun _ _ => rfl, fun _ _ => rfl, fun _ _ => rfl, fun _ _ => rfl,
   fun _ _ => rfl, fun _ _ => rfl, fun _ _ => rfl, fun _ _ => rfl,
   fun _ _ => rfl, fun _ _ => rfl, fun _ _ => rfl⟩

/-- C4 counterexample: the loginFailed constructor has an empty body, so
its result is undefined, not a record with a type field and a payload
field, refuting that every constructor returns such a record. -/
theorem loginFailed_not_an_action_record :
    loginFailed = JSValue.undef ∧ isActionRecord loginFailed = false := by decide

/-- C4 amended: the four value-producing login action constructors are
pure total functions whose result is a record with a type field and a
payload field holding exactly the packaged inputs; loginFailed is also
pure and total but returns undefined rather than an action record. -/
theorem login_creators_return_action_records (v u a : JSValue) :
    isActionRecord (setAccessId v) = true ∧
    getField (setAccessId v) "type" = .str SET_ACCESS_ID ∧
    getField (setAccessId v) "payload" = v ∧
    isActionRecord (setUsername v) = true ∧
    getField (setUsername v) "type" = .str SET_USERNAME ∧
    getField (setUsername v) "payload" = v ∧
    isActionRecord (setPassword v) = true ∧
    getField (setPassword v) "type" = .str SET_PASSWORD ∧
    getField (setPassword v) "payload" = v ∧
    isActionRecord (loginSuccess u a) = true ∧
    getField (loginSuccess u a) "type" = .str LOGIN_SUCCESS ∧
    getField (getField (loginSuccess u a) "payload") "username" = u ∧
    getField (getField (loginSuccess u a) "payload") "accessId" = a ∧
    loginFailed = JSValue.undef :=
  ⟨rfl, rfl, rfl, rfl, rfl, rfl, rfl, rfl, rfl, rfl, rfl, rfl, rfl, rfl⟩

/-- C10: App.render shows the routed views exactly when login.accessId is
any defined value: the gate tests identity with undefined, so null and the
empty string, though falsy, count as authenticated. -/
theorem routing_gate_keys_on_defined_accessId (login : LoginState) :
    (appRender login = .routedViews ↔ login.accessId ≠ .undef) ∧
    (∀ u p, appRender { accessId := .null, username := u, password := p } = .routedViews) ∧
    (∀ u p, appRender { accessId := .str "", username := u, password := p } = .routedViews) ∧
    (∀ u p, appRender { accessId := .undef, username := u, password := p } = .loginView) := by
  refine ⟨?_, fun u p => rfl, fun u p => rfl, fun u p => rfl⟩
  by_cases h : login.accessId = .undef
  · simp [appRender, h]
  · simp [appRender, h]

/-- C10 witness: concrete states with a null and an empty-string token
render the routed views. -/
theorem routing_gate_keys_on_defined_accessId_witness :
    appRender { accessId := .null, username := .undef, password := .undef } = .routedViews ∧
    appRender { accessId := .str "", username := .undef, password := .undef } = .routedViews :=
  ⟨(routing_gate_keys_on_defined_accessId
      { accessId := .null, username := .undef, password := .undef }).1.mpr (by decide),
   (routing_gate_keys_on_defined_accessId
      { accessId := .str "", username := .undef, password := .undef }).1.mpr (by decide)⟩

/-- Helper: every list-reducer transition preserves arrayness of the list
field, since SET_LISTS coerces and every other case carries it over. -/
theorem listReducer_preserves_isArray (s : ListState) (a : JSAction)
    (h : isArray s.list = true) : isArray (listReducer (some s) a).list = true := by
  simp only [listReducer, Option.getD_some]
  split_ifs with h1 h2 h3 h4 h5
  · exact h2
  · rfl
  · exact h
  · exact h
  · exact h
  · exact h

/-- Helper: every task-reducer transition preserves arrayness of the tasks
field. -/
theorem taskReducer_preserves_isArray (s : TaskState) (a : JSAction)
    (h : isArray s.tasks = true) : isArray (taskReducer (some s) a).tasks = true := by
  simp only [taskReducer, Option.getD_some]
  split_ifs with h1 h2 h3 h4 h5 h6 h7 h8
  · exact h2
  · rfl
  all_goals exact h

/-- Helper: arrayness of the list field is invariant under any dispatched
action sequence from a state whose list field is an array. -/
theorem foldl_listReducer_isArray :
    ∀ (acts : List JSAction) (s : ListState), isArray s.list = true →
      isArray ((acts.foldl (fun st a => listReducer (some st) a) s).list) = true
  | [], _, h => h
  | a :: acts, s, h =>
      foldl_listReducer_isArray acts _ (listReducer_preserves_isArray s a h)

/-- Helper: arrayness of the tasks field is invariant under any dispatched
action sequence from a state whose tasks field is an array. -/
theorem foldl_taskReducer_isArray :
    ∀ (acts : List JSAction) (s : TaskState), isArray s.tasks = true →
      isArray ((acts.foldl (fun st a => taskReducer (some st) a) s).tasks) = true
  | [], _, h => h
  | a :: acts, s, h =>
      foldl_taskReducer_isArray acts _ (taskReducer_preserves_isArray s a h)

/-- C5: SET_LISTS and SET_TASKS set their collection field to the payload
itself when it is a sequence, preserving order, and to the empty sequence
for any non-sequence payload (null, an object, a string, and so on);
consequently, from the slice defaults, the list and tasks fields are
sequences after any sequence of dispatched actions. -/
theorem collection_coercion_and_sequence_invariant :
    (∀ (s : ListState) (p : JSValue),
       (listReducer (some s) { type := .str SET_LISTS, payload := p }).list =
         if isArray p then p else .arr []) ∧
    (∀ (s : TaskState) (p : JSValue),
       (taskReducer (some s) { type := .str SET_TASKS, payload := p }).tasks =
         if isArray p then p else .arr []) ∧
    (∀ acts : List JSAction,
       isArray ((acts.foldl (fun st a => listReducer (some st) a) listInitialState).list) = true) ∧
    (∀ acts : List JSAction,
       isArray ((acts.foldl (fun st a => taskReducer (some st) a) taskInitialState).tasks) = true) :=
  ⟨fun _ _ => rfl, fun _ _ => rfl,
   fun acts => foldl_listReducer_isArray acts listInitialState rfl,
   fun acts => foldl_taskReducer_isArray acts taskInitialState rfl⟩

/-- C6: each slice reducer returns the input state unchanged on any action
whose type it does not recognize, and maps the undefined state with an
unknown action to the slice's default state. -/
theorem reducers_identity_on_unrecognized (a : JSAction) :
    (loginRecognizes a.type = false →
       (∀ s, loginReducer (some s) a = s) ∧ loginReducer none a = loginInitialState) ∧
    (listRecognizes a.type = false →
       (∀ s, listReducer (some s) a = s) ∧ listReducer none a = listInitialState) ∧
    (taskRecognizes a.type = false →
       (∀ s, taskReducer (some s) a = s) ∧ taskReducer none a = taskInitialState) := by
  refine ⟨fun h => ?_, fun h => ?_, fun h => ?_⟩
  · simp only [loginRecognizes, Bool.or_eq_false_iff, decide_eq_false_iff_not] at h
    obtain ⟨⟨⟨h1, h2⟩, h3⟩, h4⟩ := h
    exact ⟨fun s => by simp [loginReducer, h1, h2, h3, h4],
           by simp [loginReducer, h1, h2, h3, h4]⟩
  · simp only [listRecognizes, Bool.or_eq_false_iff, decide_eq_false_iff_not] at h
    obtain ⟨⟨⟨h1, h2⟩, h3⟩, h4⟩ := h
    exact ⟨fun s => by simp [listReducer, h1, h2, h3, h4],
           by simp [listReducer, h1, h2, h3, h4]⟩
  · simp only [taskRecognizes, Bool.or_eq_false_iff, decide_eq_false_iff_not] at h
    obtain ⟨⟨⟨⟨⟨⟨h1, h2⟩, h3⟩, h4⟩, h5⟩, h6⟩, h7⟩ := h
    exact ⟨fun s => by simp [taskReducer, h1, h2, h3, h4, h5, h6, h7],
           by simp [taskReducer, h1, h2, h3, h4, h5, h6, h7]⟩

/-- C6 witness: at the unknown type UNKNOWN_ACTION, each reducer leaves a
concrete populated state unchanged and maps the undefined state to the
slice default. -/
theorem reducers_identity_on_unrecognized_witness :
    loginReducer (some { accessId := .str "existing-id", username := .str "existinguser",
                         password := .undef }) { type := .str "UNKNOWN_ACTION", payload := .undef } =
      { accessId := .str "existing-id", username := .str "existinguser", password := .undef } ∧
    loginReducer none { type := .str "UNKNOWN_ACTION", payload := .undef } = loginInitialState ∧
    listReducer none { type := .str "UNKNOWN_ACTION", payload := .undef } = listInitialState ∧
    taskReducer none { type := .str "UNKNOWN_ACTION", payload := .undef } = taskInitialState := by
  have h := reducers_identity_on_unrecognized { type := .str "UNKNOWN_ACTION", payload := .undef }
  exact ⟨(h.1 (by decide)).1 _, (h.1 (by decide)).2,
         (h.2.1 (by decide)).2, (h.2.2 (by decide)).2⟩

/-- C7: with a falsy session token (missing or empty), createList issues
no request and sets the banner to the login-required message; with a valid
token, a name that is empty or blank after trimming is rejected locally by
createList and createTask with their respective validation messages, again
with no request issued. -/
theorem create_preconditions_block_network (accessId taskListId : JSValue)
    (nm ds tnm tds : String) (flagL flagT : JSValue)
    (r1 r2 r3 r4 : HttpResponse) :
    (truthy accessId = false →
       createList accessId nm ds flagL r1 r2 =
         [.setLastError none,
          .setLastError (some "You must be logged in to create a list.")] ∧
       requestPaths (createList accessId nm ds flagL r1 r2) = []) ∧
    (truthy accessId = true → jsTrim nm = "" →
       createList accessId nm ds flagL r1 r2 =
         [.setLastError none, .setLastError (some "List name is required.")] ∧
       requestPaths (createList accessId nm ds flagL r1 r2) = []) ∧
    (truthy accessId = true → truthy taskListId = true → jsTrim tnm = "" →
       createTask accessId taskListId tnm tds flagT r3 r4 =
         [.setLastError none, .setLastError (some "Task name is required.")] ∧
       requestPaths (createTask accessId taskListId tnm tds flagT r3 r4) = []) := by
  refine ⟨fun h => ?_, fun h hn => ?_, fun h hl hn => ?_⟩
  · constructor <;> simp [createList, requestPaths, h]
  · constructor <;> simp [createList, requestPaths, h, hn]
  · constructor <;> simp [createTask, requestPaths, h, hl, hn]

/-- C7 witness: an empty-string token blocks createList with the
login-required message, and with a valid token a whitespace name blocks
createList and createTask, in all cases with no request issued. -/
theorem create_preconditions_block_network_witness :
    (createList (.str "") "Groceries" "d" (.bool false) (.ok (.arr [])) (.ok (.arr [])) =
       [.setLastError none,
        .setLastError (some "You must be logged in to create a list.")] ∧
     requestPaths (createList (.str "") "Groceries" "d" (.bool false)
        (.ok (.arr [])) (.ok (.arr []))) = []) ∧
    (createList (.str "tok-1") "  " "d" (.bool false) (.ok (.arr [])) (.ok (.arr [])) =
       [.setLastError none, .setLastError (some "List name is required.")] ∧
     requestPaths (createList (.str "tok-1") "  " "d" (.bool false)
        (.ok (.arr [])) (.ok (.arr []))) = []) ∧
    (createTask (.str "tok-1") (.num 7) "  " "d" (.bool false) (.ok (.arr [])) (.ok (.arr [])) =
       [.setLastError none, .setLastError (some "Task name is required.")] ∧
     requestPaths (createTask (.str "tok-1") (.num 7) "  " "d" (.bool false)
        (.ok (.arr [])) (.ok (.arr []))) = []) :=
  ⟨(create_preconditions_block_network (.str "") (.num 7) "Groceries" "d" "t" "d"
      (.bool false) (.bool false) (.ok (.arr [])) (.ok (.arr [])) (.ok (.arr []))
      (.ok (.arr []))).1 (by decide),
   (create_preconditions_block_network (.str "tok-1") (.num 7) "  " "d" "t" "d"
      (.bool false) (.bool false) (.ok (.arr [])) (.ok (.arr [])) (.ok (.arr []))
      (.ok (.arr []))).2.1 (by decide) (by decide),
   (create_preconditions_block_network (.str "tok-1") (.num 7) "n" "d" "  " "d"
      (.bool false) (.bool false) (.ok (.arr [])) (.ok (.arr [])) (.ok (.arr []))
      (.ok (.arr []))).2.2 (by decide) (by decide) (by decide)⟩

/-- C8: when the delete request succeeds, deleteList issues exactly one
subsequent load-lists request, after the delete response is classified,
and when that reload responds with a sequence, the only dispatched action
replaces the list slice's collection wholesale with that sequence. -/
theorem delete_success_reloads_lists_once (accessId id dbody : JSValue)
    (xs : List JSValue) (s : ListState) :
    requestPaths (deleteList accessId id (.ok dbody) (.ok (.arr xs))) =
      ["/list/delete", "/list/list"] ∧
    dispatchedActions (deleteList accessId id (.ok dbody) (.ok (.arr xs))) =
      [setListsAction (.arr xs)] ∧
    (applyListEffects s (deleteList accessId id (.ok dbody) (.ok (.arr xs)))).list =
      .arr xs := by
  refine ⟨?_, ?_, ?_⟩ <;>
    simp [deleteList, loadLists, requestPaths, dispatchedActions, applyListEffects,
      setListsAction, listReducer, isArray]

/-- Helper: a literal array value is a sequence. -/
theorem isArray_arr (xs : List JSValue) : isArray (.arr xs) = true := rfl

/-- C9: a successful load response whose body is not a sequence makes
loadLists, and the Tasks component's loadTasks, dispatch only a
replacement of the collection with the empty sequence: the slice field
becomes empty, no error banner is written, and no toast is shown. -/
theorem malformed_load_body_normalized_silently (accessId listId body : JSValue)
    (s : ListState) (t : TaskState) (h : isArray body = false) :
    dispatchedActions (loadLists accessId (.ok body)) = [setListsAction (.arr [])] ∧
    errorWrites (loadLists accessId (.ok body)) = [] ∧
    toastMessages (loadLists accessId (.ok body)) = [] ∧
    (applyListEffects s (loadLists accessId (.ok body))).list = .arr [] ∧
    dispatchedActions (tasksLoadTasks accessId listId (.ok body)) =
      [setTasksAction (.arr [])] ∧
    errorWrites (tasksLoadTasks accessId listId (.ok body)) = [] ∧
    toastMessages (tasksLoadTasks accessId listId (.ok body)) = [] ∧
    (applyTaskEffects t (tasksLoadTasks accessId listId (.ok body))).tasks = .arr [] := by
  refine ⟨?_, ?_, ?_, ?_, ?_, ?_, ?_, ?_⟩ <;>
    simp [loadLists, tasksLoadTasks, dispatchedActions, errorWrites, toastMessages,
      applyListEffects, applyTaskEffects, setListsAction, setTasksAction,
      listReducer, taskReducer, isArray_arr, h]

/-- C9 witness: a successful load whose body is an object normalizes both
collections to the empty sequence with no error write and no toast. -/
theorem malformed_load_body_normalized_silently_witness :
    dispatchedActions (loadLists (.str "tok-1") (.ok (.obj [("id", .num 1)]))) =
      [setListsAction (.arr [])] ∧
    errorWrites (loadLists (.str "tok-1") (.ok (.obj [("id", .num 1)]))) = [] ∧
    (applyTaskEffects taskInitialState
       (tasksLoadTasks (.str "tok-1") (.num 7) (.ok (.obj [("id", .num 1)])))).tasks =
      .arr [] := by
  have h := malformed_load_body_normalized_silently (.str "tok-1") (.num 7)
    (.obj [("id", .num 1)]) listInitialState taskInitialState (by decide)
  exact ⟨h.1, h.2.1, h.2.2.2.2.2.2.2⟩

/-- C3: the claim says a failed create aborts with only an error report
and the form reset happens on the success path only. In both components
the reload and the three form-reset dispatches sit after the
success/failure classification, outside the else branch, so a non-2xx
create response still clears both input fields and dispatches the
show-form toggle, contradicting the comment above the reset in
createTask, which says the inputs are cleared after a successful create.
Evaluated at a failing input: create responds 500, the failure banner and
toast are recorded, and the reset dispatches still occur. -/
theorem create_failure_still_resets_form :
    (Effect.setLastError (some "Create failed: boom")) ∈
      createTask (.str "tok-1") (.num 7) "Homework" "d" (.bool true)
        (.err 500 "boom") (.ok (.arr [])) ∧
    (Effect.dispatch (setCreateTaskNameAction (.str ""))) ∈
      createTask (.str "tok-1") (.num 7) "Homework" "d" (.bool true)
        (.err 500 "boom") (.ok (.arr [])) ∧
    (Effect.dispatch (setCreateTaskDescriptionAction (.str ""))) ∈
      createTask (.str "tok-1") (.num 7) "Homework" "d" (.bool true)
        (.err 500 "boom") (.ok (.arr [])) ∧
    (Effect.dispatch (switchShowAddTaskFormAction (.bool true))) ∈
      createTask (.str "tok-1") (.num 7) "Homework" "d" (.bool true)
        (.err 500 "boom") (.ok (.arr [])) ∧
    (Effect.setLastError (some "Create failed: boom")) ∈
      createList (.str "tok-1") "Groceries" "d" (.bool true)
        (.err 500 "boom") (.ok (.arr [])) ∧
    (Effect.dispatch (setCreateListNameAction (.str ""))) ∈
      createList (.str "tok-1") "Groceries" "d" (.bool true)
        (.err 500 "boom") (.ok (.arr [])) ∧
    (Effect.dispatch (setCreateListDescriptionAction (.str ""))) ∈
      createList (.str "tok-1") "Groceries" "d" (.bool true)
        (.err 500 "boom") (.ok (.arr [])) ∧
    (Effect.dispatch (switchShowAddListFormAction (.bool true))) ∈
      createList (.str "tok-1") "Groceries" "d" (.bool true)
        (.err 500 "boom") (.ok (.arr [])) := by decide
